import Mathlib

/-!
Verification of the resilient API request client of the DocQuestioner
frontend (`frontend/src/lib/api.ts`, re-exported through
`frontend/src/components/index.ts`): the retry-with-exponential-backoff
wrapper `axiosRetry`, the `ApiClient` verb methods, the error
normalizer `handleApiError`, the health probe `checkApiHealth`, and the
service wrappers (`summarizationService`, `qaService`,
`learningPathService`, `healthService`).

The shallow embedding models the underlying HTTP transport as an
oracle: a function from the dispatched request configuration and the
attempt index (0-based) to either a successful axios response or an
`AxiosError`.  The retry loop is embedded with explicit fuel
(`retries - attempt`, exactly mirroring the `for` loop bound of the
source), and the trace it produces records the result, the number of
transport attempts made, and the list of backoff sleeps in order.
-/

namespace DocQuestioner

/-- Shape of an HTTP error-response body as inspected by
`handleApiError`: the code reads only `responseData?.message`
(`responseData` is `axiosError.response.data as any`) and passes the
whole body through as `details`.  `rest` stands for the remaining,
uninspected fields of the JSON body. -/
structure ResponseBody where
  message : Option String
  rest : List (String × String)
deriving Repr, DecidableEq

/-- The `response` field of an `AxiosError`: present when the server
answered with a non-2xx status.  The code reads `response.status` and
`response.data`. -/
structure ErrResponse where
  status : Nat
  body : ResponseBody
deriving Repr, DecidableEq

/-- Embedding of the `AxiosError` fields the repository reads:
`response` (present iff a response was received), `request` (truthy iff
the request was sent), `code` (transport-supplied machine code such as
`ECONNABORTED`), and `message` (the error's own human message, e.g.
`Request failed with status code 500`). -/
structure AxiosError where
  response : Option ErrResponse
  request : Bool
  code : Option String
  message : String
deriving Repr, DecidableEq

/-- A successful axios response: `status` in 2xx (axios resolves only
then under the default `validateStatus`) and the decoded `data` body of
type `α`.  The client returns `response.data`. -/
structure AxiosSuccess (α : Type) where
  status : Nat
  data : α
deriving Repr, DecidableEq

/-- Embedding of the `RetryConfig` interface: `retries`, `retryDelay`
(ms), and the optional `retryCondition` predicate. -/
structure RetryConfig where
  retries : Nat
  retryDelay : Nat
  retryCondition : Option (AxiosError → Bool)

/-- The `retryCondition` of `DEFAULT_RETRY_CONFIG`:
`!error.response || error.code === 'ECONNABORTED' ||
error.code === 'NETWORK_ERROR' ||
(error.response.status >= 500 && error.response.status < 600)`. -/
def defaultRetryCondition (e : AxiosError) : Bool :=
  e.response.isNone ||
  e.code == some "ECONNABORTED" ||
  e.code == some "NETWORK_ERROR" ||
  (match e.response with
   | some r => decide (500 ≤ r.status ∧ r.status < 600)
   | none => false)

/-- `DEFAULT_RETRY_CONFIG = { retries: 3, retryDelay: 1000,
retryCondition: ... }`. -/
def DEFAULT_RETRY_CONFIG : RetryConfig :=
  { retries := 3, retryDelay := 1000, retryCondition := some defaultRetryCondition }

/-- The source guard `!retryConfig.retryCondition?.(lastError)`:
when `retryCondition` is absent the optional call yields `undefined`,
which is falsy, so the error is not retried. -/
def shouldRetry (rc : RetryConfig) (e : AxiosError) : Bool :=
  match rc.retryCondition with
  | some cond => cond e
  | none => false

/-- Observable trace of one `axiosRetry` invocation: the final outcome
(the value returned, or the `AxiosError` thrown), the number of times
`apiClient.request` was invoked, and the backoff sleeps awaited, in
order. -/
structure RetryTrace (α : Type) where
  result : Except AxiosError α
  attempts : Nat
  sleeps : List Nat
deriving Repr

/-- Body of the `for (let attempt = 0; attempt <= retryConfig.retries;
attempt++)` loop of `axiosRetry`, with `fuel = retries - attempt`
making the loop bound structural.  On error: if this was the last
admissible attempt (`attempt === retryConfig.retries`, i.e. fuel 0) or
the retry condition rejects the error, the error is thrown; otherwise
the loop sleeps `retryDelay * 2 ^ attempt` and re-attempts. -/
def axiosRetryGo {α : Type} (transport : Nat → Except AxiosError α) (rc : RetryConfig)
    (fuel attempt : Nat) (sleeps : List Nat) : RetryTrace α :=
  match transport attempt with
  | Except.ok r => ⟨Except.ok r, attempt + 1, sleeps⟩
  | Except.error e =>
    match fuel with
    | 0 => ⟨Except.error e, attempt + 1, sleeps⟩
    | f + 1 =>
      if shouldRetry rc e then
        axiosRetryGo transport rc f (attempt + 1)
          (sleeps ++ [rc.retryDelay * 2 ^ attempt])
      else
        ⟨Except.error e, attempt + 1, sleeps⟩

/-- Embedding of `axiosRetry(config, retryConfig)`, with the transport
already specialized to the dispatched config: attempts run from 0, and
the loop admits at most `retries + 1` attempts. -/
def axiosRetry {α : Type} (transport : Nat → Except AxiosError α) (rc : RetryConfig) :
    RetryTrace α :=
  axiosRetryGo transport rc rc.retries 0 []

/-- The backoff sleeps `retryDelay * 2 ^ a, retryDelay * 2 ^ (a+1), ...`
incurred by `n` consecutive retried failures starting at attempt `a`. -/
def backoffSleeps (rc : RetryConfig) : Nat → Nat → List Nat
  | _, 0 => []
  | a, n + 1 => rc.retryDelay * 2 ^ a :: backoffSleeps rc (a + 1) n

/-! ## The `ApiClient` verb methods -/

/-- The fields of `AxiosRequestConfig` that the repository writes when
dispatching a request: `method`, `url`, `data` (body payload of type
`β`), and `headers` modelled as a lookup from exact header name to
value (mirroring plain JS object-spread semantics). -/
structure RequestConfig (β : Type) where
  method : Option String
  url : Option String
  data : Option β
  headers : String → Option String

/-- A call such as `api.get('/health')` passes no per-call config, so
every field of the incoming `config` is absent. -/
def emptyConfig {β : Type} : RequestConfig β :=
  { method := none, url := none, data := none, headers := fun _ => none }

/-- Outcome of one `ApiClient` verb call: the decoded `response.data`
(or the thrown `AxiosError`), plus the observable attempt count and
backoff sleeps of the underlying `axiosRetry`. -/
structure ApiResult (α : Type) where
  result : Except AxiosError α
  attempts : Nat
  sleeps : List Nat
deriving Repr

/-- Shared tail of every `ApiClient` verb:
`const response = await axiosRetry<T>(config, this.retryConfig); return
response.data;`. -/
def requestData {α : Type} (transport : Nat → Except AxiosError (AxiosSuccess α))
    (rc : RetryConfig) : ApiResult α :=
  let t := axiosRetry transport rc
  { result := t.result.map (fun r => r.data), attempts := t.attempts, sleeps := t.sleeps }

namespace ApiClient

/-- The config dispatched by `ApiClient.get`:
`{ ...config, method: 'GET', url }`. -/
def getConfig {β : Type} (cfg : RequestConfig β) (url : String) : RequestConfig β :=
  { cfg with method := some "GET", url := some url }

/-- The config dispatched by `ApiClient.post`:
`{ ...config, method: 'POST', url, data }`. -/
def postConfig {β : Type} (cfg : RequestConfig β) (url : String) (data : β) :
    RequestConfig β :=
  { cfg with method := some "POST", url := some url, data := some data }

/-- The config dispatched by `ApiClient.upload`: `{ ...config, method:
'POST', url, data: formData, headers: { ...config?.headers,
'Content-Type': 'multipart/form-data' } }`.  The header spread keeps
every caller header and then overwrites the `Content-Type` key. -/
def uploadConfig {β : Type} (cfg : RequestConfig β) (url : String) (formData : β) :
    RequestConfig β :=
  { cfg with
    method := some "POST"
    url := some url
    data := some formData
    headers := fun k =>
      if k = "Content-Type" then some "multipart/form-data" else cfg.headers k }

/-- `ApiClient.get`, over a transport oracle keyed by the dispatched
config and the attempt index. -/
def get {α β : Type} (transport : RequestConfig β → Nat → Except AxiosError (AxiosSuccess α))
    (rc : RetryConfig) (url : String) (cfg : RequestConfig β) : ApiResult α :=
  requestData (transport (getConfig cfg url)) rc

/-- `ApiClient.post`. -/
def post {α β : Type} (transport : RequestConfig β → Nat → Except AxiosError (AxiosSuccess α))
    (rc : RetryConfig) (url : String) (data : β) (cfg : RequestConfig β) : ApiResult α :=
  requestData (transport (postConfig cfg url data)) rc

/-- `ApiClient.upload`. -/
def upload {α β : Type} (transport : RequestConfig β → Nat → Except AxiosError (AxiosSuccess α))
    (rc : RetryConfig) (url : String) (formData : β) (cfg : RequestConfig β) : ApiResult α :=
  requestData (transport (uploadConfig cfg url formData)) rc

end ApiClient

/-- The module-level `api = new ApiClient()`: the constructor merges
`{ ...DEFAULT_RETRY_CONFIG, ...{} }`, which is `DEFAULT_RETRY_CONFIG`
itself. -/
def apiRetryConfig : RetryConfig := DEFAULT_RETRY_CONFIG

/-! ## Error normalization -/

/-- A raw thrown value as classified by `handleApiError`: an
`AxiosError` (`axios.isAxiosError` true), some other JS `Error`
(carrying a message), or a non-`Error` thrown value. -/
inductive RawError where
  | axios (e : AxiosError)
  | jsError (msg : String)
  | other
deriving Repr, DecidableEq

/-- The `ApiError` interface:
`{ message: string; status?: number; code?: string; details?: any }`. -/
structure ApiError where
  message : String
  status : Option Nat
  code : Option String
  details : Option ResponseBody
deriving Repr, DecidableEq

/-- JS `a || b` on an optional string `a`: `undefined` and the empty
string are falsy, anything else is returned as-is. -/
def jsOrElse (a : Option String) (b : String) : String :=
  match a with
  | some s => if s = "" then b else s
  | none => b

/-- Embedding of `handleApiError`.  Response branch: `message:
responseData?.message || axiosError.message || 'Server error occurred'`,
`status`, `code`, `details: responseData`.  Request-no-response branch:
the fixed network message plus `code`.  Fallback (also reached by an
axios error with neither `response` nor `request`): `error instanceof
Error ? error.message : 'An unexpected error occurred'`. -/
def handleApiError : RawError → ApiError
  | RawError.axios e =>
    match e.response with
    | some r =>
      { message := jsOrElse r.body.message (jsOrElse (some e.message) "Server error occurred")
        status := some r.status
        code := e.code
        details := some r.body }
    | none =>
      if e.request then
        { message := "Network error - please check your connection"
          status := none
          code := e.code
          details := none }
      else
        { message := e.message, status := none, code := none, details := none }
  | RawError.jsError m => { message := m, status := none, code := none, details := none }
  | RawError.other =>
    { message := "An unexpected error occurred", status := none, code := none, details := none }

/-! ## Health probe and services -/

/-- Embedding of `checkApiHealth`: `try { await api.get('/health');
return true; } catch { return false; }`. -/
def checkApiHealth {α β : Type}
    (transport : RequestConfig β → Nat → Except AxiosError (AxiosSuccess α)) : Bool :=
  match (ApiClient.get transport apiRetryConfig "/health" emptyConfig).result with
  | Except.ok _ => true
  | Except.error _ => false

/-- A `FormData` payload, as the list of appended `(name, value)`
entries; the `File` argument is carried opaquely as a string. -/
def FormDataPayload : Type := List (String × String)

namespace summarizationService

/-- `summarizeText`: `api.post('/api/summarize', request)`, catching
any failure and re-throwing `new Error(handleApiError(error).message)`.
The thrown plain `Error` is embedded as its message string.  The
request and response body shapes are opaque to this layer (`β`, `α`). -/
def summarizeText {α β : Type}
    (transport : RequestConfig β → Nat → Except AxiosError (AxiosSuccess α))
    (request : β) : Except String α :=
  match (ApiClient.post transport apiRetryConfig "/api/summarize" request emptyConfig).result with
  | Except.ok v => Except.ok v
  | Except.error e => Except.error (handleApiError (RawError.axios e)).message

end summarizationService

namespace qaService

/-- `answerQuestion`: `api.post('/api/qa', request)` with the same
catch-normalize-rethrow wrapper. -/
def answerQuestion {α β : Type}
    (transport : RequestConfig β → Nat → Except AxiosError (AxiosSuccess α))
    (request : β) : Except String α :=
  match (ApiClient.post transport apiRetryConfig "/api/qa" request emptyConfig).result with
  | Except.ok v => Except.ok v
  | Except.error e => Except.error (handleApiError (RawError.axios e)).message

/-- `answerQuestionWithFile`: builds a `FormData` with entries
`question` and `file` and calls `api.upload('/api/qa', formData)`,
with the same catch-normalize-rethrow wrapper. -/
def answerQuestionWithFile {α : Type}
    (transport : RequestConfig FormDataPayload → Nat → Except AxiosError (AxiosSuccess α))
    (question file : String) : Except String α :=
  let formData : FormDataPayload := [("question", question), ("file", file)]
  match (ApiClient.upload transport apiRetryConfig "/api/qa" formData emptyConfig).result with
  | Except.ok v => Except.ok v
  | Except.error e => Except.error (handleApiError (RawError.axios e)).message

end qaService

namespace learningPathService

/-- `generatePath`: `api.post('/api/learning-path', request)` with the
same catch-normalize-rethrow wrapper. -/
def generatePath {α β : Type}
    (transport : RequestConfig β → Nat → Except AxiosError (AxiosSuccess α))
    (request : β) : Except String α :=
  match (ApiClient.post transport apiRetryConfig "/api/learning-path" request emptyConfig).result with
  | Except.ok v => Except.ok v
  | Except.error e => Except.error (handleApiError (RawError.axios e)).message

end learningPathService

namespace healthService

/-- `checkHealth`: `api.get('/health')` with the same
catch-normalize-rethrow wrapper (unlike `checkApiHealth`, this one
surfaces the normalized message). -/
def checkHealth {α β : Type}
    (transport : RequestConfig β → Nat → Except AxiosError (AxiosSuccess α)) :
    Except String α :=
  match (ApiClient.get transport apiRetryConfig "/health" emptyConfig).result with
  | Except.ok v => Except.ok v
  | Except.error e => Except.error (handleApiError (RawError.axios e)).message

end healthService

/-! ## Spec-side classification and concrete example values -/

/-- Classification following the spec's words (section "Failure
classification mapping"): a failure is transient iff no response was
received, or the transport reported one of its timeout/abort/network
condition codes (`ECONNABORTED` for a timeout/abort, `NETWORK_ERROR`
for a network drop — the two codes the spec's design notes name as the
separate "timeout" and "network error" transient causes), or a response
was received with a server error status in 500–599 inclusive. -/
def specTransient (e : AxiosError) : Prop :=
  e.response = none ∨
  e.code = some "ECONNABORTED" ∨
  e.code = some "NETWORK_ERROR" ∨
  ∃ r, e.response = some r ∧ 500 ≤ r.status ∧ r.status ≤ 599

/-- A 404 client-error failure: a response was received, no transport
code override. -/
def err404 : AxiosError :=
  { response := some { status := 404, body := { message := some "Not Found", rest := [] } }
    request := true
    code := none
    message := "Request failed with status code 404" }

/-- A total network failure: request sent, no response received. -/
def netErr : AxiosError :=
  { response := none
    request := true
    code := some "ERR_NETWORK"
    message := "Network Error" }

/-- A 500 server failure whose response body carries no `message`
field, while the axios error itself carries the usual axios message. -/
def cex500 : AxiosError :=
  { response := some { status := 500, body := { message := none, rest := [("detail", "boom")] } }
    request := true
    code := some "ERR_BAD_RESPONSE"
    message := "Request failed with status code 500" }

/-- A 400 failure whose response body does carry a `message` field. -/
def err400 : AxiosError :=
  { response := some { status := 400, body := { message := some "Bad request", rest := [] } }
    request := true
    code := some "ERR_BAD_REQUEST"
    message := "Request failed with status code 400" }

/-- A caller-supplied config carrying the custom header
`X-Custom: value`. -/
def customCfg : RequestConfig FormDataPayload :=
  { method := none
    url := none
    data := none
    headers := fun k => if k = "X-Custom" then some "value" else none }

/-- A transport that answers any request with the 404 failure. -/
def failTransport404 : RequestConfig Unit → Nat → Except AxiosError (AxiosSuccess Nat) :=
  fun _ _ => Except.error err404

/-- A transport that fails any attempt with the network error. -/
def failTransportNet : RequestConfig Unit → Nat → Except AxiosError (AxiosSuccess Nat) :=
  fun _ _ => Except.error netErr

/-- A transport that fails any attempt with the 500 failure. -/
def failTransportCex : RequestConfig Nat → Nat → Except AxiosError (AxiosSuccess Nat) :=
  fun _ _ => Except.error cex500

/-- A transport that succeeds immediately with status 200 and body 42. -/
def okTransport42 : RequestConfig Unit → Nat → Except AxiosError (AxiosSuccess Nat) :=
  fun _ _ => Except.ok ⟨200, 42⟩

/-! ## Unfolding lemmas for the retry loop -/

theorem axiosRetryGo_ok {α : Type} {transport : Nat → Except AxiosError α} {rc : RetryConfig}
    {fuel attempt : Nat} {sleeps : List Nat} {r : α}
    (h : transport attempt = Except.ok r) :
    axiosRetryGo transport rc fuel attempt sleeps = ⟨Except.ok r, attempt + 1, sleeps⟩ := by
  unfold axiosRetryGo
  rw [h]

theorem axiosRetryGo_err_zero {α : Type} {transport : Nat → Except AxiosError α}
    {rc : RetryConfig} {attempt : Nat} {sleeps : List Nat} {e : AxiosError}
    (h : transport attempt = Except.error e) :
    axiosRetryGo transport rc 0 attempt sleeps = ⟨Except.error e, attempt + 1, sleeps⟩ := by
  unfold axiosRetryGo
  rw [h]

theorem axiosRetryGo_err_stop {α : Type} {transport : Nat → Except AxiosError α}
    {rc : RetryConfig} {f attempt : Nat} {sleeps : List Nat} {e : AxiosError}
    (h : transport attempt = Except.error e) (hr : shouldRetry rc e = false) :
    axiosRetryGo transport rc (f + 1) attempt sleeps = ⟨Except.error e, attempt + 1, sleeps⟩ := by
  unfold axiosRetryGo
  rw [h]
  simp [hr]

theorem axiosRetryGo_err_retry {α : Type} {transport : Nat → Except AxiosError α}
    {rc : RetryConfig} {f attempt : Nat} {sleeps : List Nat} {e : AxiosError}
    (h : transport attempt = Except.error e) (hr : shouldRetry rc e = true) :
    axiosRetryGo transport rc (f + 1) attempt sleeps =
      axiosRetryGo transport rc f (attempt + 1)
        (sleeps ++ [rc.retryDelay * 2 ^ attempt]) := by
  conv_lhs => rw [axiosRetryGo.eq_def]
  rw [h]
  simp [hr]

/-- When every attempt fails and every failure is retryable, the loop
runs out of fuel: it makes `fuel + 1` further attempts from `attempt`,
sleeps the full backoff schedule, and ends with the last error. -/
theorem axiosRetryGo_allFail {α : Type} (transport : Nat → Except AxiosError α)
    (rc : RetryConfig) (errAt : Nat → AxiosError)
    (hf : ∀ i, transport i = Except.error (errAt i))
    (ht : ∀ i, shouldRetry rc (errAt i) = true) :
    ∀ fuel attempt sleeps,
      axiosRetryGo transport rc fuel attempt sleeps =
        ⟨Except.error (errAt (attempt + fuel)), attempt + fuel + 1,
          sleeps ++ backoffSleeps rc attempt fuel⟩ := by
  intro fuel
  induction fuel with
  | zero =>
    intro a s
    rw [axiosRetryGo_err_zero (hf a)]
    simp [backoffSleeps]
  | succ f ih =>
    intro a s
    rw [axiosRetryGo_err_retry (hf a) (ht a), ih (a + 1)]
    have h1 : a + 1 + f = a + (f + 1) := by omega
    simp [backoffSleeps, h1]

/-- When the first `j` attempts (counted from `attempt`) fail
retryably and attempt `attempt + j` succeeds, the loop returns the
successful value after `j + 1` further attempts and the first `j`
backoff sleeps. -/
theorem axiosRetryGo_succeedsAt {α : Type} (transport : Nat → Except AxiosError α)
    (rc : RetryConfig) (errAt : Nat → AxiosError) (r : α) :
    ∀ j fuel attempt sleeps, j ≤ fuel →
      (∀ i, i < j → transport (attempt + i) = Except.error (errAt (attempt + i)) ∧
        shouldRetry rc (errAt (attempt + i)) = true) →
      transport (attempt + j) = Except.ok r →
      axiosRetryGo transport rc fuel attempt sleeps =
        ⟨Except.ok r, attempt + j + 1, sleeps ++ backoffSleeps rc attempt j⟩ := by
  intro j
  induction j with
  | zero =>
    intro fuel a s _ _ hs
    rw [axiosRetryGo_ok (by simpa using hs)]
    simp [backoffSleeps]
  | succ j ih =>
    intro fuel a s hle hfail hs
    match fuel, hle with
    | f + 1, _ =>
      have h0 := hfail 0 (by omega)
      rw [axiosRetryGo_err_retry (by simpa using h0.1) (by simpa using h0.2)]
      rw [ih f (a + 1) _ (by omega)
        (fun i hi => by
          have := hfail (i + 1) (by omega)
          constructor
          · have h2 : a + (i + 1) = a + 1 + i := by omega
            rw [h2] at this
            exact this.1
          · have h2 : a + (i + 1) = a + 1 + i := by omega
            rw [h2] at this
            exact this.2)
        (by
          have h2 : a + (j + 1) = a + 1 + j := by omega
          rw [h2] at hs
          exact hs)]
      have h3 : a + 1 + j = a + (j + 1) := by omega
      simp [backoffSleeps, h3]

/-- A first-attempt failure rejected by the retry condition ends the
loop at once, whatever the fuel: one attempt, no sleeps. -/
theorem axiosRetry_stops_on_non_retryable {α : Type} {transport : Nat → Except AxiosError α}
    {rc : RetryConfig} {e : AxiosError}
    (h : transport 0 = Except.error e) (hr : shouldRetry rc e = false) :
    axiosRetry transport rc = ⟨Except.error e, 1, []⟩ := by
  unfold axiosRetry
  cases hf : rc.retries with
  | zero => exact axiosRetryGo_err_zero h
  | succ f => exact axiosRetryGo_err_stop h hr

/-- All-transient-failure behaviour of `axiosRetry` from attempt 0. -/
theorem axiosRetry_allFail {α : Type} (transport : Nat → Except AxiosError α)
    (rc : RetryConfig) (errAt : Nat → AxiosError)
    (hf : ∀ i, transport i = Except.error (errAt i))
    (ht : ∀ i, shouldRetry rc (errAt i) = true) :
    axiosRetry transport rc =
      ⟨Except.error (errAt rc.retries), rc.retries + 1, backoffSleeps rc 0 rc.retries⟩ := by
  unfold axiosRetry
  rw [axiosRetryGo_allFail transport rc errAt hf ht rc.retries 0 []]
  simp

/-- Success on attempt `j` (0-based) after `j` retryable failures. -/
theorem axiosRetry_succeedsAt {α : Type} (transport : Nat → Except AxiosError α)
    (rc : RetryConfig) (errAt : Nat → AxiosError) (r : α) (j : Nat)
    (hj : j ≤ rc.retries)
    (hfail : ∀ i, i < j → transport i = Except.error (errAt i) ∧
      shouldRetry rc (errAt i) = true)
    (hs : transport j = Except.ok r) :
    axiosRetry transport rc = ⟨Except.ok r, j + 1, backoffSleeps rc 0 j⟩ := by
  unfold axiosRetry
  rw [axiosRetryGo_succeedsAt transport rc errAt r j rc.retries 0 [] hj
    (fun i hi => by simpa using hfail i hi) (by simpa using hs)]
  simp

theorem ApiClient.get_eq {α β : Type}
    (transport : RequestConfig β → Nat → Except AxiosError (AxiosSuccess α))
    (rc : RetryConfig) (url : String) (cfg : RequestConfig β) :
    ApiClient.get transport rc url cfg =
      { result := (axiosRetry (transport (ApiClient.getConfig cfg url)) rc).result.map
          (fun s => s.data)
        attempts := (axiosRetry (transport (ApiClient.getConfig cfg url)) rc).attempts
        sleeps := (axiosRetry (transport (ApiClient.getConfig cfg url)) rc).sleeps } := rfl

theorem ApiClient.post_eq {α β : Type}
    (transport : RequestConfig β → Nat → Except AxiosError (AxiosSuccess α))
    (rc : RetryConfig) (url : String) (data : β) (cfg : RequestConfig β) :
    ApiClient.post transport rc url data cfg =
      { result := (axiosRetry (transport (ApiClient.postConfig cfg url data)) rc).result.map
          (fun s => s.data)
        attempts := (axiosRetry (transport (ApiClient.postConfig cfg url data)) rc).attempts
        sleeps := (axiosRetry (transport (ApiClient.postConfig cfg url data)) rc).sleeps } := rfl

/-! ## Claims -/

/-- C1: a failure is transient (per the code's `retryCondition`) if and
only if no response was received, or the transport reports one of its
timeout/abort/network condition codes, or a response was received with
status in 500–599; a failure carrying a response with a 4xx status (and
no such transport code) is non-transient; and for every non-transient
failure the client makes exactly 1 transport attempt and raises
immediately with no backoff sleep. -/
theorem transient_classification_and_single_attempt :
    (∀ e, defaultRetryCondition e = true ↔ specTransient e) ∧
    (∀ e r, e.response = some r → 400 ≤ r.status → r.status ≤ 499 →
      e.code ≠ some "ECONNABORTED" → e.code ≠ some "NETWORK_ERROR" →
      defaultRetryCondition e = false) ∧
    (∀ (α : Type) (transport : Nat → Except AxiosError α) (e : AxiosError),
      transport 0 = Except.error e → defaultRetryCondition e = false →
      axiosRetry transport DEFAULT_RETRY_CONFIG = ⟨Except.error e, 1, []⟩) := by
  refine ⟨?_, ?_, ?_⟩
  · intro e
    constructor
    · intro h
      unfold specTransient
      cases he : e.response with
      | none => exact Or.inl rfl
      | some r =>
        unfold defaultRetryCondition at h
        rw [he] at h
        simp only [Option.isNone_some, Bool.false_or, Bool.or_eq_true, beq_iff_eq,
          decide_eq_true_eq] at h
        rcases h with (h | h) | h
        · exact Or.inr (Or.inl h)
        · exact Or.inr (Or.inr (Or.inl h))
        · exact Or.inr (Or.inr (Or.inr ⟨r, rfl, h.1, by omega⟩))
    · intro h
      unfold defaultRetryCondition
      rcases h with h | h | h | ⟨r, hr, h5, h6⟩
      · simp [h]
      · simp [h]
      · simp [h]
      · rw [hr]
        simp only [Option.isNone_some, Bool.false_or, Bool.or_eq_true, beq_iff_eq,
          decide_eq_true_eq]
        right
        exact ⟨h5, by omega⟩
  · intro e r he h4 h4b hc1 hc2
    unfold defaultRetryCondition
    rw [he]
    simp only [Option.isNone_some, Bool.false_or, Bool.or_eq_false_iff, beq_eq_false_iff_ne,
      ne_eq, decide_eq_false_iff_not, not_and, not_lt]
    exact ⟨⟨hc1, hc2⟩, fun h5 => by omega⟩
  · intro α transport e h0 hcond
    exact axiosRetry_stops_on_non_retryable h0
      (by simp [shouldRetry, DEFAULT_RETRY_CONFIG, hcond])

/-- Witness for C1: the concrete 404 failure is classified
non-transient and a transport that raises it is attempted once with no
sleep. -/
theorem transient_classification_and_single_attempt_witness :
    defaultRetryCondition err404 = false ∧
    axiosRetry (fun _ => (Except.error err404 : Except AxiosError Nat)) DEFAULT_RETRY_CONFIG =
      ⟨Except.error err404, 1, []⟩ := by
  have h4 := transient_classification_and_single_attempt.2.1 err404
    { status := 404, body := { message := some "Not Found", rest := [] } }
    rfl (by decide) (by decide) (by decide) (by decide)
  exact ⟨h4, transient_classification_and_single_attempt.2.2 Nat
    (fun _ => Except.error err404) err404 rfl h4⟩

/-- C2: when every attempt fails transiently under the default
configuration, the client makes exactly 1 + 3 = 4 transport attempts,
sleeps 1000·2⁰, 1000·2¹, 1000·2² ms before the 2nd, 3rd and 4th
attempts, whose total is 7000 ms, and raises the failure observed on
the last attempt. -/
theorem default_retry_exhausts_attempts {α : Type}
    (transport : Nat → Except AxiosError α) (errAt : Nat → AxiosError)
    (hf : ∀ i, transport i = Except.error (errAt i))
    (ht : ∀ i, defaultRetryCondition (errAt i) = true) :
    axiosRetry transport DEFAULT_RETRY_CONFIG =
      ⟨Except.error (errAt 3), 4, [1000, 2000, 4000]⟩ ∧
    ([1000, 2000, 4000] : List Nat).sum = 7000 := by
  constructor
  · rw [axiosRetry_allFail transport DEFAULT_RETRY_CONFIG errAt hf
      (fun i => by simp [shouldRetry, DEFAULT_RETRY_CONFIG, ht i])]
    rfl
  · decide

/-- Witness for C2: a transport that always fails with the concrete
network error is attempted 4 times with sleeps 1000, 2000, 4000 ms. -/
theorem default_retry_exhausts_attempts_witness :
    axiosRetry (fun _ => (Except.error netErr : Except AxiosError Nat)) DEFAULT_RETRY_CONFIG =
      ⟨Except.error netErr, 4, [1000, 2000, 4000]⟩ :=
  (default_retry_exhausts_attempts (fun _ => Except.error netErr) (fun _ => netErr)
    (fun _ => rfl) (fun _ => rfl)).1

/-- C3: when the transport succeeds on attempt `j` (0-based, so the
`k = j + 1`-st attempt, `k ≤ retries + 1`) after `j` transient
failures, the client invokes the transport exactly `j + 1` times and
returns the decoded body of the successful response; with `j = 0`
(transport never fails) it is invoked exactly once. -/
theorem client_returns_body_on_kth_success {α β : Type}
    (transport : RequestConfig β → Nat → Except AxiosError (AxiosSuccess α))
    (rc : RetryConfig) (url : String) (cfg : RequestConfig β)
    (errAt : Nat → AxiosError) (j : Nat) (r : AxiosSuccess α)
    (hj : j ≤ rc.retries)
    (hfail : ∀ i, i < j →
      transport (ApiClient.getConfig cfg url) i = Except.error (errAt i) ∧
      shouldRetry rc (errAt i) = true)
    (hsucc : transport (ApiClient.getConfig cfg url) j = Except.ok r) :
    (ApiClient.get transport rc url cfg).result = Except.ok r.data ∧
    (ApiClient.get transport rc url cfg).attempts = j + 1 := by
  have h := axiosRetry_succeedsAt (transport (ApiClient.getConfig cfg url)) rc errAt r j
    hj hfail hsucc
  rw [ApiClient.get_eq, h]
  exact ⟨rfl, rfl⟩

/-- Witness for C3: a transport that always succeeds with body 42 is
invoked exactly once and the body is returned. -/
theorem client_returns_body_on_kth_success_witness :
    (ApiClient.get okTransport42
      DEFAULT_RETRY_CONFIG "/api/summarize" emptyConfig).result = Except.ok 42 ∧
    (ApiClient.get okTransport42
      DEFAULT_RETRY_CONFIG "/api/summarize" emptyConfig).attempts = 1 :=
  client_returns_body_on_kth_success okTransport42
    DEFAULT_RETRY_CONFIG "/api/summarize" emptyConfig (fun _ => netErr) 0 ⟨200, 42⟩
    (by decide) (fun i hi => absurd hi (by omega)) rfl

/-- C4 counterexample: for the concrete 500 failure `cex500`, whose
response body has no `message` field, normalization yields the axios
error's own message (`responseData?.message || axiosError.message ||
'Server error occurred'`), not the generic "Server error occurred"
required by the claim. -/
theorem handleApiError_message_counterexample :
    cex500.response = some { status := 500, body := { message := none, rest := [("detail", "boom")] } } ∧
    (handleApiError (RawError.axios cex500)).message = "Request failed with status code 500" ∧
    (handleApiError (RawError.axios cex500)).message ≠ "Server error occurred" := by
  refine ⟨rfl, rfl, ?_⟩
  decide

/-- C4 (amended): for every failure carrying a response, the
NormalizedError's statusCode is the response status, errorCode the
transport-supplied code, details the full response body, and the
message is the body's `message` field if present and non-empty,
otherwise the transport error's own message if non-empty, otherwise
the generic "Server error occurred". -/
theorem handleApiError_response_fields (e : AxiosError) (r : ErrResponse)
    (h : e.response = some r) :
    (handleApiError (RawError.axios e)).status = some r.status ∧
    (handleApiError (RawError.axios e)).code = e.code ∧
    (handleApiError (RawError.axios e)).details = some r.body ∧
    (∀ m, r.body.message = some m → m ≠ "" →
      (handleApiError (RawError.axios e)).message = m) ∧
    ((r.body.message = none ∨ r.body.message = some "") → e.message ≠ "" →
      (handleApiError (RawError.axios e)).message = e.message) ∧
    ((r.body.message = none ∨ r.body.message = some "") → e.message = "" →
      (handleApiError (RawError.axios e)).message = "Server error occurred") := by
  have he : handleApiError (RawError.axios e) =
      { message := jsOrElse r.body.message (jsOrElse (some e.message) "Server error occurred")
        status := some r.status
        code := e.code
        details := some r.body } := by
    simp only [handleApiError]
    rw [h]
  rw [he]
  refine ⟨rfl, rfl, rfl, ?_, ?_, ?_⟩
  · intro m hm hne
    simp [jsOrElse, hm, hne]
  · rintro (hm | hm) hne <;> simp [jsOrElse, hm, hne]
  · rintro (hm | hm) hne <;> simp [jsOrElse, hm, hne]

/-- Witness for C4 (amended) at the concrete 400 failure whose body
carries `message: "Bad request"`. -/
theorem handleApiError_response_fields_witness :
    (handleApiError (RawError.axios err400)).message = "Bad request" ∧
    (handleApiError (RawError.axios err400)).status = some 400 :=
  ⟨(handleApiError_response_fields err400
      { status := 400, body := { message := some "Bad request", rest := [] } }
      rfl).2.2.2.1 "Bad request" rfl (by decide),
   (handleApiError_response_fields err400
      { status := 400, body := { message := some "Bad request", rest := [] } }
      rfl).1⟩

/-- C5: for every input, the normalized error's message is present (the
field is total), statusCode is present only when a response was
received (and then equals its status), errorCode is present only when
the transport supplied a code (and then equals it), and in the
request-sent-no-response case the message is exactly the fixed network
message with statusCode absent. -/
theorem handleApiError_invariant (e : RawError) :
    (∃ m, (handleApiError e).message = m) ∧
    ((handleApiError e).status ≠ none →
      ∃ ae r, e = RawError.axios ae ∧ ae.response = some r ∧
        (handleApiError e).status = some r.status) ∧
    ((handleApiError e).code ≠ none →
      ∃ ae, e = RawError.axios ae ∧ (handleApiError e).code = ae.code) ∧
    (∀ ae, e = RawError.axios ae → ae.response = none → ae.request = true →
      (handleApiError e).message = "Network error - please check your connection" ∧
      (handleApiError e).status = none) := by
  refine ⟨⟨_, rfl⟩, ?_, ?_, ?_⟩
  · intro hne
    cases e with
    | axios ae =>
      cases hr : ae.response with
      | some r =>
        refine ⟨ae, r, rfl, hr, ?_⟩
        simp only [handleApiError]
        rw [hr]
      | none =>
        exfalso
        apply hne
        simp only [handleApiError]
        rw [hr]
        cases hq : ae.request <;> simp
    | jsError m => exact absurd rfl hne
    | other => exact absurd rfl hne
  · intro hne
    cases e with
    | axios ae =>
      refine ⟨ae, rfl, ?_⟩
      cases hr : ae.response with
      | some r =>
        simp only [handleApiError]
        rw [hr]
      | none =>
        simp only [handleApiError]
        rw [hr]
        cases hq : ae.request with
        | true => simp
        | false =>
          exfalso
          apply hne
          simp only [handleApiError]
          rw [hr]
          simp [hq]
    | jsError m => exact absurd rfl hne
    | other => exact absurd rfl hne
  · intro ae hae hr hq
    subst hae
    simp only [handleApiError]
    rw [hr]
    simp [hq]

/-- Witness for C5 at the concrete network failure: request sent, no
response. -/
theorem handleApiError_invariant_witness :
    (handleApiError (RawError.axios netErr)).message =
      "Network error - please check your connection" ∧
    (handleApiError (RawError.axios netErr)).status = none :=
  (handleApiError_invariant (RawError.axios netErr)).2.2.2 netErr rfl rfl rfl

/-- C6: the health probe returns true exactly when the underlying GET
against the fixed `/health` path does not throw, returns false exactly
when it throws (so it never surfaces an error value, only a Bool); in
particular a non-transient first failure such as a 4xx response gives
false, and a persistent no-response network failure gives false. -/
theorem checkApiHealth_boolean (α β : Type)
    (transport : RequestConfig β → Nat → Except AxiosError (AxiosSuccess α)) :
    (checkApiHealth transport = true ↔
      ∃ a, (ApiClient.get transport apiRetryConfig "/health" emptyConfig).result =
        Except.ok a) ∧
    (checkApiHealth transport = false ↔
      ∃ e, (ApiClient.get transport apiRetryConfig "/health" emptyConfig).result =
        Except.error e) ∧
    (∀ e, transport (ApiClient.getConfig emptyConfig "/health") 0 = Except.error e →
      defaultRetryCondition e = false → checkApiHealth transport = false) ∧
    (∀ errAt : Nat → AxiosError,
      (∀ i, transport (ApiClient.getConfig emptyConfig "/health") i =
        Except.error (errAt i)) →
      (∀ i, (errAt i).response = none) →
      checkApiHealth transport = false) := by
  refine ⟨?_, ?_, ?_, ?_⟩
  · unfold checkApiHealth
    cases hres : (ApiClient.get transport apiRetryConfig "/health" emptyConfig).result with
    | ok a => simp
    | error e => simp
  · unfold checkApiHealth
    cases hres : (ApiClient.get transport apiRetryConfig "/health" emptyConfig).result with
    | ok a => simp
    | error e => simp
  · intro e h0 hcond
    have hstop := @axiosRetry_stops_on_non_retryable (AxiosSuccess α)
      (transport (ApiClient.getConfig emptyConfig "/health")) apiRetryConfig e h0
      (by simp [shouldRetry, apiRetryConfig, DEFAULT_RETRY_CONFIG, hcond])
    unfold checkApiHealth
    rw [ApiClient.get_eq, hstop]
    rfl
  · intro errAt hf hnone
    have hall := axiosRetry_allFail (transport (ApiClient.getConfig emptyConfig "/health"))
      apiRetryConfig errAt hf
      (fun i => by
        simp [shouldRetry, apiRetryConfig, DEFAULT_RETRY_CONFIG, defaultRetryCondition,
          hnone i])
    unfold checkApiHealth
    rw [ApiClient.get_eq, hall]
    rfl

/-- Witness for C6: a transport answering 404 on the first attempt
makes the health probe return false. -/
theorem checkApiHealth_boolean_witness :
    checkApiHealth failTransport404 = false :=
  (checkApiHealth_boolean Nat Unit failTransport404).2.2.1 err404 rfl (by decide)

/-- C7: the request dispatched by `upload` carries
`Content-Type: multipart/form-data`, retains every caller-supplied
header under any other name, and routes through the very same
retry/error pipeline as `post` (the only difference being the forced
content-type header). -/
theorem upload_forces_multipart_header {β : Type} (cfg : RequestConfig β)
    (url : String) (fd : β) :
    ((ApiClient.uploadConfig cfg url fd).headers "Content-Type" =
      some "multipart/form-data") ∧
    (∀ k, k ≠ "Content-Type" →
      (ApiClient.uploadConfig cfg url fd).headers k = cfg.headers k) ∧
    (∀ (α : Type)
      (transport : RequestConfig β → Nat → Except AxiosError (AxiosSuccess α))
      (rc : RetryConfig),
      ApiClient.upload transport rc url fd cfg =
        ApiClient.post transport rc url fd
          { cfg with headers := fun k =>
              if k = "Content-Type" then some "multipart/form-data"
              else cfg.headers k }) := by
  refine ⟨by simp [ApiClient.uploadConfig], ?_, ?_⟩
  · intro k hk
    simp [ApiClient.uploadConfig, hk]
  · intro α transport rc
    rfl

/-- Witness for C7: with the caller config carrying `X-Custom: value`,
the dispatched upload headers force the multipart content type and
retain `X-Custom`. -/
theorem upload_forces_multipart_header_witness :
    ((ApiClient.uploadConfig customCfg "/api/qa" ([] : FormDataPayload)).headers
      "Content-Type" = some "multipart/form-data") ∧
    ((ApiClient.uploadConfig customCfg "/api/qa" ([] : FormDataPayload)).headers
      "X-Custom" = some "value") := by
  have h := upload_forces_multipart_header customCfg "/api/qa" ([] : FormDataPayload)
  refine ⟨h.1, ?_⟩
  rw [h.2.1 "X-Custom" (by decide)]
  rfl

/-- C8: error normalization is deterministic and pure — it is a
function of the raw failure value alone (the embedding takes no state),
so normalizing the same value twice yields the same NormalizedError. -/
theorem handleApiError_deterministic (e₁ e₂ : RawError) (h : e₁ = e₂) :
    handleApiError e₁ = handleApiError e₂ := by
  rw [h]

/-- Witness for C8 at the concrete 500 failure. -/
theorem handleApiError_deterministic_witness :
    handleApiError (RawError.axios cex500) = handleApiError (RawError.axios cex500) :=
  handleApiError_deterministic (RawError.axios cex500) (RawError.axios cex500) rfl

/-- C9: `checkApiHealth` runs on the default retrying client: when the
transport fails transiently on every attempt of the `/health` GET, it
is invoked exactly 4 times, the full backoff sleeps 1000, 2000, 4000 ms
are incurred, and the probe finally returns false. -/
theorem checkApiHealth_exhausts_default_retries (α β : Type)
    (transport : RequestConfig β → Nat → Except AxiosError (AxiosSuccess α))
    (errAt : Nat → AxiosError)
    (hf : ∀ i, transport (ApiClient.getConfig emptyConfig "/health") i =
      Except.error (errAt i))
    (ht : ∀ i, defaultRetryCondition (errAt i) = true) :
    (ApiClient.get transport apiRetryConfig "/health" emptyConfig).attempts = 4 ∧
    (ApiClient.get transport apiRetryConfig "/health" emptyConfig).sleeps =
      [1000, 2000, 4000] ∧
    checkApiHealth transport = false := by
  have hall := axiosRetry_allFail (transport (ApiClient.getConfig emptyConfig "/health"))
    apiRetryConfig errAt hf
    (fun i => by simp [shouldRetry, apiRetryConfig, DEFAULT_RETRY_CONFIG, ht i])
  refine ⟨?_, ?_, ?_⟩
  · rw [ApiClient.get_eq, hall]
    rfl
  · rw [ApiClient.get_eq, hall]
    rfl
  · unfold checkApiHealth
    rw [ApiClient.get_eq, hall]
    rfl

/-- Witness for C9: a transport that always fails with the concrete
network error on `/health`. -/
theorem checkApiHealth_exhausts_default_retries_witness :
    (ApiClient.get failTransportNet
      apiRetryConfig "/health" emptyConfig).attempts = 4 ∧
    (ApiClient.get failTransportNet
      apiRetryConfig "/health" emptyConfig).sleeps = [1000, 2000, 4000] ∧
    checkApiHealth failTransportNet = false :=
  checkApiHealth_exhausts_default_retries Nat Unit failTransportNet
    (fun _ => netErr) (fun _ => rfl) (fun _ => rfl)

/-- C10: every service wrapper surfaces a failure as a plain Error
carrying exactly the normalized message string (the embedding's thrown
type is `String`): the NormalizedError's statusCode, errorCode and
details cannot pass the service layer. -/
theorem services_surface_only_normalized_message :
    (∀ (α β : Type)
      (transport : RequestConfig β → Nat → Except AxiosError (AxiosSuccess α))
      (request : β) (e : AxiosError),
      (ApiClient.post transport apiRetryConfig "/api/summarize" request
        emptyConfig).result = Except.error e →
      summarizationService.summarizeText transport request =
        Except.error (handleApiError (RawError.axios e)).message) ∧
    (∀ (α β : Type)
      (transport : RequestConfig β → Nat → Except AxiosError (AxiosSuccess α))
      (request : β) (e : AxiosError),
      (ApiClient.post transport apiRetryConfig "/api/qa" request
        emptyConfig).result = Except.error e →
      qaService.answerQuestion transport request =
        Except.error (handleApiError (RawError.axios e)).message) ∧
    (∀ (α : Type)
      (transport : RequestConfig FormDataPayload → Nat →
        Except AxiosError (AxiosSuccess α))
      (question file : String) (e : AxiosError),
      (ApiClient.upload transport apiRetryConfig "/api/qa"
        [("question", question), ("file", file)] emptyConfig).result =
          Except.error e →
      qaService.answerQuestionWithFile transport question file =
        Except.error (handleApiError (RawError.axios e)).message) ∧
    (∀ (α β : Type)
      (transport : RequestConfig β → Nat → Except AxiosError (AxiosSuccess α))
      (request : β) (e : AxiosError),
      (ApiClient.post transport apiRetryConfig "/api/learning-path" request
        emptyConfig).result = Except.error e →
      learningPathService.generatePath transport request =
        Except.error (handleApiError (RawError.axios e)).message) ∧
    (∀ (α β : Type)
      (transport : RequestConfig β → Nat → Except AxiosError (AxiosSuccess α))
      (e : AxiosError),
      (ApiClient.get transport apiRetryConfig "/health" emptyConfig).result =
        Except.error e →
      healthService.checkHealth transport =
        Except.error (handleApiError (RawError.axios e)).message) := by
  refine ⟨?_, ?_, ?_, ?_, ?_⟩
  · intro α β transport request e h
    unfold summarizationService.summarizeText
    rw [h]
  · intro α β transport request e h
    unfold qaService.answerQuestion
    rw [h]
  · intro α transport question file e h
    unfold qaService.answerQuestionWithFile
    simp only [h]
  · intro α β transport request e h
    unfold learningPathService.generatePath
    rw [h]
  · intro α β transport e h
    unfold healthService.checkHealth
    rw [h]

/-- Witness for C10: a summarization call failing persistently with the
concrete 500 error surfaces exactly the normalized message string. -/
theorem services_surface_only_normalized_message_witness :
    summarizationService.summarizeText failTransportCex 0 =
      Except.error (handleApiError (RawError.axios cex500)).message :=
  services_surface_only_normalized_message.1 Nat Nat
    failTransportCex 0 cex500 (by rfl)

end DocQuestioner
